import Mathlib

/-!
Verification of the smartcache library (Go) against its specification.

The development shallowly embeds the core of the repository:
`entry.go` (cache entries and the expiry predicate), `config.go`
(configuration and option validation), and `cache.go` (the `Get`
classification algorithm, the fetch-to-entry pipeline, the context
derivations, and the per-key coordination registry).

Wall-clock instants and durations are modelled as `Int` nanoseconds
(Go's `time.Time` / `time.Duration`); `time.Now()` becomes an explicit
`now : Int` parameter.  Go errors are modelled as opaque `Nat` codes.
Pointer-typed fields (`*T`, `error`, `*time.Time`) become `Option`.
-/

namespace SmartCache

/-- Errors are modelled as opaque codes; the core never inspects an error
except through the user-supplied `errorTTLFunc`. -/
abbrev Err := Nat

/-- Result types, from `cache.go`: `Miss | WarmHit | HotHit`
(iota order: `Miss = 0`, `WarmHit = 1`, `HotHit = 2`). -/
inductive ResultType : Type
  | Miss
  | WarmHit
  | HotHit
deriving DecidableEq, Repr

/-- Result of a `Get` call, from `cache.go`:
`Result[T] { Data *T; Type ResultType }`. -/
structure Result (T : Type) : Type where
  data : Option T
  type : ResultType
deriving Repr

/-- Cache entry, from `entry.go`:
`CacheEntry[T] { Data *T; Err error; Created time.Time; FixedExpiration *time.Time }`. -/
structure CacheEntry (T : Type) : Type where
  data : Option T
  err : Option Err
  created : Int
  fixedExpiration : Option Int
deriving Repr

/-- Constructor `newOKCacheItem` from `entry.go`:
`&CacheEntry[T]{Data: data, Created: time.Now()}`. -/
def newOKCacheItem {T : Type} (data : Option T) (now : Int) : CacheEntry T :=
  { data := data, err := none, created := now, fixedExpiration := none }

/-- Constructor `newErrCacheItem` from `entry.go`:
`exp := time.Now().Add(ttl); &CacheEntry[T]{Err: err, FixedExpiration: &exp}`.
The `Created` field is left at the zero value of `time.Time`, modelled as `0`. -/
def newErrCacheItem {T : Type} (err : Err) (ttl : Int) (now : Int) : CacheEntry T :=
  { data := none, err := some err, created := 0, fixedExpiration := some (now + ttl) }

/-- Constructor `newEmptyExpiredCacheItem` from `entry.go`:
`exp := time.Now(); &CacheEntry[T]{FixedExpiration: &exp}`. -/
def newEmptyExpiredCacheItem {T : Type} (now : Int) : CacheEntry T :=
  { data := none, err := none, created := 0, fixedExpiration := some now }

/-- Expiry predicate `CacheEntry.IsExpired` from `entry.go`:
if `FixedExpiration != nil` return `FixedExpiration.Before(now)`,
otherwise return `Created.Add(ttl).Before(now)`.  `time.Time.Before` is
the strict order on instants. -/
def CacheEntry.IsExpired {T : Type} (it : CacheEntry T) (ttl : Int) (now : Int) : Bool :=
  match it.fixedExpiration with
  | some e => e < now
  | none => it.created + ttl < now

/-- Fetch result, from `cache.go`:
`FetchResult[T] { Data *T; CreatedAt time.Time; Type ResultType }`.
`CreatedAt` is documented as optional ("defaults to the function call
time"), so the unset zero value is modelled as `none`. -/
structure FetchResult (T : Type) : Type where
  data : Option T
  createdAt : Option Int
deriving Repr

/-- Configuration, from `config.go`.  The `backgroundErrorHandler` field is
a pure sink and is not needed by any claim, so it is not modelled as data;
`errorTTLFunc` is kept as a function, as in the source. -/
structure Config : Type where
  primaryTTL : Int
  secondaryTTL : Int
  backgroundFetchTimeout : Int
  errorTTLFunc : Err → Int
  cacheSize : Nat

/-- Go duration constant `time.Minute` in nanoseconds. -/
def timeMinute : Int := 60000000000

/-- Go duration constant `time.Hour` in nanoseconds. -/
def timeHour : Int := 3600000000000

/-- Initial configuration built inside `New` in `cache.go`:
`primaryTTL: time.Minute, secondaryTTL: time.Hour,
backgroundFetchTimeout: time.Minute, errorTTLFunc: func(err) { return 0 }`. -/
def defaultConfig : Config :=
  { primaryTTL := timeMinute
    secondaryTTL := timeHour
    backgroundFetchTimeout := timeMinute
    errorTTLFunc := fun _ => 0
    cacheSize := 0 }

/-- Options are `func(*config) error`, modelled as state-passing with an
`Except` for the validation error message. -/
abbrev ConfigOption := Config → Except String Config

/-- Option `WithTTL` from `config.go`, translated exactly as written: the
validation tests read the fields of the incoming config `c`
(`c.primaryTTL == 0`, `c.secondaryTTL <= c.primaryTTL`) and not the
arguments, after which the arguments are stored unconditionally. -/
def WithTTL (primaryTTL secondaryTTL : Int) : ConfigOption := fun c =>
  if c.primaryTTL = 0 then
    .error ("primaryTTL has to be > 0")
  else if c.secondaryTTL ≤ c.primaryTTL then
    .error ("secondaryTTL has to be > primaryTTL")
  else
    .ok { c with primaryTTL := primaryTTL, secondaryTTL := secondaryTTL }

/-- Option `WithCacheSize` from `config.go`. -/
def WithCacheSize (size : Nat) : ConfigOption := fun c =>
  if size = 0 then
    .error ("cache size has to be > 0")
  else
    .ok { c with cacheSize := size }

/-- Option `WithBackgroundFetchTimeout` from `config.go`. -/
def WithBackgroundFetchTimeout (timeout : Int) : ConfigOption := fun c =>
  if timeout = 0 then
    .error ("timeout has to be > 0")
  else
    .ok { c with backgroundFetchTimeout := timeout }

/-- Constructor `New` from `cache.go`: rejects a nil backend, builds the
default config, then applies the options in order, failing on the first
option error.  Only the configuration part is carried in the result; the
runtime parts (channel registry, lifetime context) are modelled by the
transition system below. -/
def New (backendIsNil : Bool) (options : List ConfigOption) : Except String Config :=
  if backendIsNil then
    .error ("backend is nil")
  else
    options.foldlM (fun cfg o => o cfg) defaultConfig

/-- Cancellation sources a derived context is sensitive to. -/
inductive CancelSource : Type
  | callerCancel
  | cacheLifetime
  | bgTimeout
deriving DecidableEq, Repr

/-- Sensitivity of the caller-supplied context `ctx` passed to `Get`. -/
def callerContextSources : List CancelSource := [CancelSource.callerCancel]

/-- Sensitivity of the context built by `newForegroundContext` in
`cache.go`: a cancellable child of the caller context that is additionally
cancelled when the cache lifetime context `sc.ctx` is done. -/
def foregroundContextSources : List CancelSource :=
  [CancelSource.callerCancel, CancelSource.cacheLifetime]

/-- Sensitivity of the context built by `newBackgroundContext` in
`cache.go`: `context.WithTimeout(sc.ctx, t)` when
`backgroundFetchTimeout > 0`, otherwise `context.WithCancel(sc.ctx)`.
Either way it is derived from the cache lifetime context only. -/
def backgroundContextSources (cfg : Config) : List CancelSource :=
  if 0 < cfg.backgroundFetchTimeout then
    [CancelSource.cacheLifetime, CancelSource.bgTimeout]
  else
    [CancelSource.cacheLifetime]

/-- Record of the background refresh goroutine spawned by the WarmHit
branch of `Get` in `cache.go` (lines 214-236): which context each of its
two externally visible operations receives.  The fetch runs under
`bkgCtx := sc.newBackgroundContext()`; the write-back runs as
`sc.backend.Set(ctx, ...)` where `ctx` is the spawning caller's context. -/
structure BackgroundTask : Type where
  fetchCtx : List CancelSource
  setCtx : List CancelSource
deriving DecidableEq, Repr

/-- Helper `fetchToCacheEntry` from `cache.go`: calls the fetch function;
on error consults `errorTTLFunc`; `errTTL == 0` yields the empty-expired
sentinel together with the fetch error, any other `errTTL` yields an error
entry and a nil error; on success the fetched data is wrapped by
`newOKCacheItem` (the `CreatedAt` field of the `FetchResult` is not read
anywhere in the source).  `now` is the instant at fetch completion. -/
def fetchToCacheEntry {T : Type} (cfg : Config) (now : Int)
    (fetchOutcome : Except Err (FetchResult T)) : CacheEntry T × Option Err :=
  match fetchOutcome with
  | .error e =>
    let errTTL := cfg.errorTTLFunc e
    if errTTL = 0 then
      (newEmptyExpiredCacheItem now, some e)
    else
      (newErrCacheItem e errTTL now, none)
  | .ok r => (newOKCacheItem r.data now, none)

/-- Observable outcome of one `Get` call body (after the per-key lock is
held and the backend has been read).  `backendWrite` records the
`backend.Set` call as the pair of its retention TTL argument and the
entry written (writes are assumed not to fail; no claim concerns write
failures). -/
structure GetOutcome (T : Type) : Type where
  result : Result T
  outerErr : Option Err
  fetchInvoked : Bool
  backendWrite : Option (Int × CacheEntry T)
  spawned : Option BackgroundTask
deriving Repr

/-- Miss-branch body of `Get` from `cache.go` (lines 169-187): invoke the
fetch through `fetchToCacheEntry`; on a non-nil error return it with no
write; otherwise `backend.Set(ctx, key, sc.config.secondaryTTL, item)`,
`result.Data = item.Data`, and `item.Err` is returned as the outer
error. -/
def getMissBranch {T : Type} (cfg : Config) (now : Int)
    (fetchOutcome : Except Err (FetchResult T)) : GetOutcome T :=
  let fetched := fetchToCacheEntry cfg now fetchOutcome
  match fetched.2 with
  | some e =>
    { result := { data := none, type := ResultType.Miss }
      outerErr := some e
      fetchInvoked := true
      backendWrite := none
      spawned := none }
  | none =>
    { result := { data := fetched.1.data, type := ResultType.Miss }
      outerErr := fetched.1.err
      fetchInvoked := true
      backendWrite := some (cfg.secondaryTTL, fetched.1)
      spawned := none }

/-- Body of `Cache.Get` from `cache.go` (lines 167-239), for one call:
the `switch` classifies the single backend snapshot `entry`, the Miss
branch invokes the fetch synchronously, the HotHit branch returns the
entry data and error, and the WarmHit branch returns the entry data and
error and spawns a background refresh unless `updatePending` is already
set.  `now` is the current instant, `updatePending` the flag read from
the key's registry record, and `fetchOutcome` the behaviour of the
supplied fetch function. -/
def GetBody {T : Type} (cfg : Config) (entry : Option (CacheEntry T)) (now : Int)
    (fetchOutcome : Except Err (FetchResult T)) (updatePending : Bool) : GetOutcome T :=
  match entry with
  | none => getMissBranch cfg now fetchOutcome
  | some e =>
    if e.IsExpired cfg.secondaryTTL now then
      getMissBranch cfg now fetchOutcome
    else if ¬ (e.IsExpired cfg.primaryTTL now) then
      { result := { data := e.data, type := ResultType.HotHit }
        outerErr := e.err
        fetchInvoked := false
        backendWrite := none
        spawned := none }
    else if updatePending then
      { result := { data := e.data, type := ResultType.WarmHit }
        outerErr := e.err
        fetchInvoked := false
        backendWrite := none
        spawned := none }
    else
      { result := { data := e.data, type := ResultType.WarmHit }
        outerErr := e.err
        fetchInvoked := false
        backendWrite := none
        spawned := some { fetchCtx := backgroundContextSources cfg
                          setCtx := callerContextSources } }

/-- Classification predicate of the first `switch` case of `Get`:
`entry == nil || entry.IsExpired(sc.config.secondaryTTL)`. -/
def MissClassified {T : Type} (cfg : Config) (entry : Option (CacheEntry T)) (now : Int) : Prop :=
  entry = none ∨ ∃ e, entry = some e ∧ e.IsExpired cfg.secondaryTTL now = true

/-!
The coordination registry and its clients are modelled as an interleaving
transition system.  The Go registry is `requests chan map[string]*request`
— a capacity-one channel holding the map, so every section of code between
`requests := <-sc.requests` and `sc.requests <- requests` is one atomic
step.  All such sections touch a single key, so the system tracks one
arbitrary fixed key: its registry record (`slot`), the `sync.WaitGroup`
counter, the lifetime-context cancellation flag, the completion of
`Close`, and how many `Get` calls and background refresh goroutines for
that key sit at each program point of `cache.go`.  The per-key lock
channel (`request.lock`) only serialises the classification bodies and is
not needed by any claim, so it is not tracked; leaving it out only adds
interleavings, which is sound for the safety properties proved here.
-/

/-- Registry record for one key, from `cache.go`:
`request { requests uint; lock chan struct{}; updatePending bool }`
(the lock channel is omitted, see the module comment above). -/
structure Request : Type where
  requests : Nat
  updatePending : Bool
deriving DecidableEq, Repr

/-- Global state of the cache for one key: the registry record, the
`sync.WaitGroup` counter, the lifetime context flag set by `Close`,
whether `Close` has returned, and occupancy counts for each program point
of foreground `Get` calls and background refresh goroutines. -/
structure SysState : Type where
  slot : Option Request
  wgCount : Nat
  cancelled : Bool
  closeReturned : Bool
  fgStart : Nat
  fgChecked : Nat
  fgRegistered : Nat
  fgAcquired : Nat
  fgFetching : Nat
  fgExiting : Nat
  fgReleased : Nat
  fgDone : Nat
  fgFailed : Nat
  bgRunning : Nat
  bgReleased : Nat
  bgDone : Nat
deriving DecidableEq, Repr

/-- State at construction (`New`): empty registry, zero counter, lifetime
context live, no calls in flight. -/
def initState : SysState :=
  { slot := none
    wgCount := 0
    cancelled := false
    closeReturned := false
    fgStart := 0
    fgChecked := 0
    fgRegistered := 0
    fgAcquired := 0
    fgFetching := 0
    fgExiting := 0
    fgReleased := 0
    fgDone := 0
    fgFailed := 0
    bgRunning := 0
    bgReleased := 0
    bgDone := 0 }

/-- One atomic step of the system.  Foreground program points follow
`Get` in `cache.go`: `fgStart` is a call that has just been made (before
the `sc.ctx.Err()` check at line 122), `fgChecked` is past both context
checks but before `sc.wg.Add(1)` (line 129), `fgRegistered` is counted
but before the registry acquisition (lines 133-146), `fgAcquired` holds
an incremented registry record and is classifying, `fgFetching` is inside
the Miss-branch fetch, `fgExiting` is about to run the deferred registry
release (lines 149-158), `fgReleased` is past it but before the deferred
`sc.wg.Done()`, and `fgDone` / `fgFailed` are the two returns.  A
background goroutine is `bgRunning` from the `go` statement until its
final registry section (lines 229-235), `bgReleased` until its
`sc.wg.Done()`, then `bgDone`.  `Close` (lines 113-116) first cancels the
lifetime context, then returns once the counter is zero. -/
inductive Step : SysState → SysState → Prop
  | getArrive (s : SysState) :
      Step s { s with fgStart := s.fgStart + 1 }
  | getCheckPass (s : SysState) (h : 0 < s.fgStart) (hc : s.cancelled = false) :
      Step s { s with fgStart := s.fgStart - 1, fgChecked := s.fgChecked + 1 }
  | getCheckFail (s : SysState) (h : 0 < s.fgStart) (hc : s.cancelled = true) :
      Step s { s with fgStart := s.fgStart - 1, fgFailed := s.fgFailed + 1 }
  | getRegister (s : SysState) (h : 0 < s.fgChecked) :
      Step s { s with fgChecked := s.fgChecked - 1, fgRegistered := s.fgRegistered + 1,
                      wgCount := s.wgCount + 1 }
  | getAcquire (s : SysState) (h : 0 < s.fgRegistered) :
      Step s { s with fgRegistered := s.fgRegistered - 1, fgAcquired := s.fgAcquired + 1,
                      slot := some (match s.slot with
                        | none => { requests := 1, updatePending := false }
                        | some r => { r with requests := r.requests + 1 }) }
  | getMissFetch (s : SysState) (h : 0 < s.fgAcquired) :
      Step s { s with fgAcquired := s.fgAcquired - 1, fgFetching := s.fgFetching + 1 }
  | getFetchDone (s : SysState) (h : 0 < s.fgFetching) :
      Step s { s with fgFetching := s.fgFetching - 1, fgExiting := s.fgExiting + 1 }
  | getHot (s : SysState) (h : 0 < s.fgAcquired) :
      Step s { s with fgAcquired := s.fgAcquired - 1, fgExiting := s.fgExiting + 1 }
  | getWarmNoSpawn (s : SysState) (r : Request) (h : 0 < s.fgAcquired)
      (hs : s.slot = some r) (hp : r.updatePending = true) :
      Step s { s with fgAcquired := s.fgAcquired - 1, fgExiting := s.fgExiting + 1 }
  | getWarmSpawn (s : SysState) (r : Request) (h : 0 < s.fgAcquired)
      (hs : s.slot = some r) (hp : r.updatePending = false) :
      Step s { s with fgAcquired := s.fgAcquired - 1, fgExiting := s.fgExiting + 1,
                      slot := some { requests := r.requests + 1, updatePending := true },
                      wgCount := s.wgCount + 1, bgRunning := s.bgRunning + 1 }
  | getRelease (s : SysState) (r : Request) (h : 0 < s.fgExiting) (hs : s.slot = some r) :
      Step s { s with fgExiting := s.fgExiting - 1, fgReleased := s.fgReleased + 1,
                      slot := if r.requests - 1 = 0 then none
                              else some { r with requests := r.requests - 1 } }
  | getWgDone (s : SysState) (h : 0 < s.fgReleased) :
      Step s { s with fgReleased := s.fgReleased - 1, fgDone := s.fgDone + 1,
                      wgCount := s.wgCount - 1 }
  | bgFinish (s : SysState) (r : Request) (h : 0 < s.bgRunning) (hs : s.slot = some r) :
      Step s { s with bgRunning := s.bgRunning - 1, bgReleased := s.bgReleased + 1,
                      slot := if r.requests - 1 = 0 then none
                              else some { requests := r.requests - 1, updatePending := false } }
  | bgWgDone (s : SysState) (h : 0 < s.bgReleased) :
      Step s { s with bgReleased := s.bgReleased - 1, bgDone := s.bgDone + 1,
                      wgCount := s.wgCount - 1 }
  | closeCancel (s : SysState) (hc : s.cancelled = false) :
      Step s { s with cancelled := true }
  | closeReturn (s : SysState) (hc : s.cancelled = true) (hw : s.wgCount = 0)
      (hr : s.closeReturned = false) :
      Step s { s with closeReturned := true }

/-- States reachable from construction. -/
inductive Reachable : SysState → Prop
  | init : Reachable initState
  | step {s t : SysState} : Reachable s → Step s t → Reachable t

/-- Number of foreground calls currently holding a reference in the
registry record (between the acquisition and the deferred release). -/
def fgHolders (s : SysState) : Nat :=
  s.fgAcquired + s.fgFetching + s.fgExiting

/-- Number of operations currently counted by the `sync.WaitGroup`:
foreground calls between `Add` and `Done`, and background goroutines
between the spawn (whose `Add` happens in the spawning atomic section)
and their `Done`. -/
def wgOwners (s : SysState) : Nat :=
  s.fgRegistered + fgHolders s + s.fgReleased + s.bgRunning + s.bgReleased

/-- Inductive invariant of the coordination state: the counter matches
its owners; `Close` only returns after cancelling; at most one background
refresh exists; an absent registry record means no holder and no
background refresh; a present record counts exactly the holders plus the
background refresh, is never kept at count zero, and its `updatePending`
flag is set exactly while a background refresh is in flight. -/
def Inv (s : SysState) : Prop :=
  s.wgCount = wgOwners s ∧
  (s.closeReturned = true → s.cancelled = true) ∧
  s.bgRunning ≤ 1 ∧
  (s.slot = none → fgHolders s = 0 ∧ s.bgRunning = 0) ∧
  (∀ r, s.slot = some r →
    r.requests = fgHolders s + s.bgRunning ∧ 0 < r.requests ∧
    (r.updatePending = true ↔ s.bgRunning = 1))

theorem inv_init : Inv initState := by
  refine ⟨rfl, by simp [initState], by simp [initState], ?_, ?_⟩
  · intro _; exact ⟨rfl, rfl⟩
  · intro r hr; simp [initState] at hr

theorem inv_step {s t : SysState} (hinv : Inv s) (hstep : Step s t) : Inv t := by
  obtain ⟨hwg, hcl, hbg1, hnone, hsome⟩ := hinv
  cases hstep with
  | getArrive =>
    refine ⟨?_, hcl, hbg1, ?_, ?_⟩
    · simpa [wgOwners, fgHolders] using hwg
    · intro h; simpa [fgHolders] using hnone h
    · intro r hr
      have := hsome r hr
      simpa [fgHolders] using this
  | getCheckPass h hc =>
    refine ⟨?_, hcl, hbg1, ?_, ?_⟩
    · simpa [wgOwners, fgHolders] using hwg
    · intro hs; simpa [fgHolders] using hnone hs
    · intro r hr; simpa [fgHolders] using hsome r hr
  | getCheckFail h hc =>
    refine ⟨?_, hcl, hbg1, ?_, ?_⟩
    · simpa [wgOwners, fgHolders] using hwg
    · intro hs; simpa [fgHolders] using hnone hs
    · intro r hr; simpa [fgHolders] using hsome r hr
  | getRegister h =>
    refine ⟨?_, hcl, hbg1, ?_, ?_⟩
    · simp only [wgOwners, fgHolders] at hwg ⊢
      omega
    · intro hs; simpa [fgHolders] using hnone hs
    · intro r hr; simpa [fgHolders] using hsome r hr
  | getAcquire h =>
    refine ⟨?_, hcl, hbg1, ?_, ?_⟩
    · simp only [wgOwners, fgHolders] at hwg ⊢
      omega
    · intro hs; simp at hs
    · intro r hr
      simp only [Option.some.injEq] at hr
      cases hslot : s.slot with
      | none =>
        have hz := hnone hslot
        rw [hslot] at hr
        simp only at hr
        subst hr
        simp only [fgHolders] at hz ⊢
        constructor
        · omega
        · constructor
          · omega
          · constructor
            · intro hfalse
              simp at hfalse
            · intro hb
              simp at hb
              omega
      | some r0 =>
        have hr0 := hsome r0 hslot
        rw [hslot] at hr
        simp only at hr
        subst hr
        simp only [fgHolders] at hr0 ⊢
        refine ⟨by omega, by omega, ?_⟩
        simpa using hr0.2.2
  | getMissFetch h =>
    refine ⟨?_, hcl, hbg1, ?_, ?_⟩
    · simp only [wgOwners, fgHolders] at hwg ⊢
      omega
    · intro hs
      have := hnone hs
      simp only [fgHolders] at this ⊢
      omega
    · intro r hr
      have := hsome r hr
      simp only [fgHolders] at this ⊢
      exact ⟨by omega, this.2.1, this.2.2⟩
  | getFetchDone h =>
    refine ⟨?_, hcl, hbg1, ?_, ?_⟩
    · simp only [wgOwners, fgHolders] at hwg ⊢
      omega
    · intro hs
      have := hnone hs
      simp only [fgHolders] at this ⊢
      omega
    · intro r hr
      have := hsome r hr
      simp only [fgHolders] at this ⊢
      exact ⟨by omega, this.2.1, this.2.2⟩
  | getHot h =>
    refine ⟨?_, hcl, hbg1, ?_, ?_⟩
    · simp only [wgOwners, fgHolders] at hwg ⊢
      omega
    · intro hs
      have := hnone hs
      simp only [fgHolders] at this ⊢
      omega
    · intro r hr
      have := hsome r hr
      simp only [fgHolders] at this ⊢
      exact ⟨by omega, this.2.1, this.2.2⟩
  | getWarmNoSpawn r h hs hp =>
    refine ⟨?_, hcl, hbg1, ?_, ?_⟩
    · simp only [wgOwners, fgHolders] at hwg ⊢
      omega
    · intro hsl
      have := hnone hsl
      simp only [fgHolders] at this ⊢
      omega
    · intro r1 hr1
      have := hsome r1 hr1
      simp only [fgHolders] at this ⊢
      exact ⟨by omega, this.2.1, this.2.2⟩
  | getWarmSpawn r h hs hp =>
    have hr := hsome r hs
    have hbgzero : s.bgRunning = 0 := by
      have hne : ¬ s.bgRunning = 1 := by
        intro hb
        have := hr.2.2.2 hb
        rw [this] at hp
        exact absurd hp (by simp)
      omega
    refine ⟨?_, hcl, by simp [hbgzero], ?_, ?_⟩
    · simp only [wgOwners, fgHolders] at hwg ⊢
      omega
    · intro hsl; simp at hsl
    · intro r1 hr1
      simp only [Option.some.injEq] at hr1
      subst hr1
      simp only [fgHolders] at hr ⊢
      refine ⟨by omega, by omega, ?_⟩
      constructor
      · intro _
        simp [hbgzero]
      · intro _
        trivial
  | getRelease r h hs =>
    have hr := hsome r hs
    refine ⟨?_, hcl, hbg1, ?_, ?_⟩
    · simp only [wgOwners, fgHolders] at hwg ⊢
      omega
    · intro hsl
      simp only at hsl
      split at hsl
      · next hzero =>
        simp only [fgHolders] at hr ⊢
        omega
      · simp at hsl
    · intro r1 hr1
      simp only at hr1
      split at hr1
      · simp at hr1
      · next hnz =>
        simp only [Option.some.injEq] at hr1
        subst hr1
        simp only [fgHolders] at hr ⊢
        refine ⟨by omega, by omega, ?_⟩
        simpa using hr.2.2
  | getWgDone h =>
    refine ⟨?_, hcl, hbg1, ?_, ?_⟩
    · simp only [wgOwners, fgHolders] at hwg ⊢
      omega
    · intro hs; simpa [fgHolders] using hnone hs
    · intro r hr; simpa [fgHolders] using hsome r hr
  | bgFinish r h hs =>
    have hr := hsome r hs
    have hbgone : s.bgRunning = 1 := by omega
    refine ⟨?_, hcl, by simp; omega, ?_, ?_⟩
    · simp only [wgOwners, fgHolders] at hwg ⊢
      omega
    · intro hsl
      simp only at hsl
      split at hsl
      · next hzero =>
        simp only [fgHolders] at hr ⊢
        omega
      · simp at hsl
    · intro r1 hr1
      simp only at hr1
      split at hr1
      · simp at hr1
      · next hnz =>
        simp only [Option.some.injEq] at hr1
        subst hr1
        simp only [fgHolders] at hr ⊢
        refine ⟨by omega, by omega, ?_⟩
        constructor
        · intro hfalse
          simp at hfalse
        · intro hb
          simp at hb
          exact absurd hb (by omega)
  | bgWgDone h =>
    refine ⟨?_, hcl, hbg1, ?_, ?_⟩
    · simp only [wgOwners, fgHolders] at hwg ⊢
      omega
    · intro hs
      have := hnone hs
      simp only [fgHolders] at this ⊢
      omega
    · intro r hr
      have := hsome r hr
      simp only [fgHolders] at this ⊢
      refine ⟨by omega, this.2.1, ?_⟩
      simpa using this.2.2
  | closeCancel hc =>
    refine ⟨?_, ?_, hbg1, ?_, ?_⟩
    · simpa [wgOwners, fgHolders] using hwg
    · intro _; rfl
    · intro hs; simpa [fgHolders] using hnone hs
    · intro r hr; simpa [fgHolders] using hsome r hr
  | closeReturn hc hw hr =>
    refine ⟨?_, ?_, hbg1, ?_, ?_⟩
    · simpa [wgOwners, fgHolders] using hwg
    · intro _; exact hc
    · intro hs; simpa [fgHolders] using hnone hs
    · intro r1 hr1; simpa [fgHolders] using hsome r1 hr1

theorem inv_reachable {s : SysState} (h : Reachable s) : Inv s := by
  induction h with
  | init => exact inv_init
  | step _ hstep ih => exact inv_step ih hstep

theorem getBody_eq_miss {T : Type} (cfg : Config) (entry : Option (CacheEntry T)) (now : Int)
    (fo : Except Err (FetchResult T)) (p : Bool) (hmiss : MissClassified cfg entry now) :
    GetBody cfg entry now fo p = getMissBranch cfg now fo := by
  rcases hmiss with hnone | ⟨e, he, hexp⟩
  · subst hnone
    rfl
  · subst he
    simp [GetBody, hexp]

theorem getMissBranch_err_pos {T : Type} (cfg : Config) (now : Int) (fe : Err)
    (hne : cfg.errorTTLFunc fe ≠ 0) :
    getMissBranch cfg now (Except.error fe) =
      ({ result := { data := none, type := ResultType.Miss }
         outerErr := some fe
         fetchInvoked := true
         backendWrite := some (cfg.secondaryTTL, newErrCacheItem fe (cfg.errorTTLFunc fe) now)
         spawned := none } : GetOutcome T) := by
  simp [getMissBranch, fetchToCacheEntry, hne, newErrCacheItem]

/-- C1: for every `Get` call that reaches classification, the result type
is determined by a single snapshot of the backend entry.  If the entry is
absent or expired under `secondaryTTL` the call takes the Miss branch
(result type `Miss`, fetch invoked synchronously); else if it is not
expired under `primaryTTL` it takes the HotHit branch (result type
`HotHit`, the entry's data and error are returned, no fetch); else it
takes the WarmHit branch (result type `WarmHit`, the entry's data and
error are returned without the foreground invoking the fetch). -/
theorem claim_C1_classification {T : Type} (cfg : Config) (entry : Option (CacheEntry T))
    (now : Int) (fo : Except Err (FetchResult T)) (p : Bool) :
    (MissClassified cfg entry now →
      (GetBody cfg entry now fo p).result.type = ResultType.Miss ∧
      (GetBody cfg entry now fo p).fetchInvoked = true) ∧
    (∀ e, entry = some e → e.IsExpired cfg.secondaryTTL now = false →
      e.IsExpired cfg.primaryTTL now = false →
      (GetBody cfg entry now fo p).result.type = ResultType.HotHit ∧
      (GetBody cfg entry now fo p).result.data = e.data ∧
      (GetBody cfg entry now fo p).outerErr = e.err ∧
      (GetBody cfg entry now fo p).fetchInvoked = false) ∧
    (∀ e, entry = some e → e.IsExpired cfg.secondaryTTL now = false →
      e.IsExpired cfg.primaryTTL now = true →
      (GetBody cfg entry now fo p).result.type = ResultType.WarmHit ∧
      (GetBody cfg entry now fo p).result.data = e.data ∧
      (GetBody cfg entry now fo p).outerErr = e.err ∧
      (GetBody cfg entry now fo p).fetchInvoked = false) := by
  refine ⟨?_, ?_, ?_⟩
  · intro hmiss
    rw [getBody_eq_miss cfg entry now fo p hmiss]
    cases hf : (fetchToCacheEntry cfg now fo).2 <;> simp [getMissBranch, hf]
  · intro e he hsec hprim
    subst he
    simp [GetBody, hsec, hprim]
  · intro e he hsec hprim
    subst he
    cases p <;> simp [GetBody, hsec, hprim]

/-- Witness for C1 at a concrete input: a missing entry takes the Miss
branch and invokes the fetch. -/
theorem claim_C1_witness :
    (GetBody defaultConfig (none : Option (CacheEntry Nat)) 0
      (Except.ok { data := some 5, createdAt := none }) false).result.type = ResultType.Miss ∧
    (GetBody defaultConfig (none : Option (CacheEntry Nat)) 0
      (Except.ok { data := some 5, createdAt := none }) false).fetchInvoked = true :=
  (claim_C1_classification defaultConfig none 0
    (Except.ok { data := some 5, createdAt := none }) false).1 (Or.inl rfl)

/-- Configuration that negatively caches every error for 5ns, used as a
concrete instance for C2. -/
def cfgErrTTL5 : Config :=
  { defaultConfig with errorTTLFunc := fun _ => 5 }

/-- Counterexample to C2 as stated: with `errorTTLFunc` returning `5 > 0`,
a foreground Miss whose fetch fails with error `7` does produce result
type `Miss` and data `none` and does write the error entry, but the call
returns `some 7` as the outer error — `Get` returns `result, item.Err` at
`cache.go` line 186 — not "no outer error" as the claim states. -/
theorem claim_C2_counterexample :
    0 < cfgErrTTL5.errorTTLFunc 7 ∧
    (GetBody cfgErrTTL5 (none : Option (CacheEntry Nat)) 0 (Except.error 7) false).result.type
      = ResultType.Miss ∧
    (GetBody cfgErrTTL5 (none : Option (CacheEntry Nat)) 0 (Except.error 7) false).outerErr
      = some 7 := by
  refine ⟨by decide, rfl, rfl⟩

/-- C2 as amended: in the Miss branch, for every fetch failure whose
`errorTTLFunc(err)` is greater than 0, `Get` constructs an error entry
with fixed expiration `now + ttl`, writes it to the backend under
`secondaryTTL`, and returns `(data: none, type: Miss)` with the fetch
error as the outer error; the cached entry also surfaces the error on
subsequent reads until the fixed expiration passes. -/
theorem claim_C2_amended_theorem {T : Type} (cfg : Config) (entry : Option (CacheEntry T))
    (now : Int) (fe : Err) (p : Bool)
    (hmiss : MissClassified cfg entry now) (hpos : 0 < cfg.errorTTLFunc fe) :
    (GetBody cfg entry now (Except.error fe) p).result.type = ResultType.Miss ∧
    (GetBody cfg entry now (Except.error fe) p).result.data = none ∧
    (GetBody cfg entry now (Except.error fe) p).backendWrite =
      some (cfg.secondaryTTL, newErrCacheItem fe (cfg.errorTTLFunc fe) now) ∧
    (GetBody cfg entry now (Except.error fe) p).outerErr = some fe ∧
    (∀ (now2 : Int) (fo2 : Except Err (FetchResult T)) (p2 : Bool),
      ¬ (now + cfg.errorTTLFunc fe < now2) →
      (GetBody cfg (some (newErrCacheItem fe (cfg.errorTTLFunc fe) now)) now2 fo2 p2).outerErr
        = some fe ∧
      (GetBody cfg (some (newErrCacheItem fe (cfg.errorTTLFunc fe) now)) now2 fo2 p2).result.type
        = ResultType.HotHit) := by
  have hne : cfg.errorTTLFunc fe ≠ 0 := by omega
  rw [getBody_eq_miss cfg entry now (Except.error fe) p hmiss,
    getMissBranch_err_pos cfg now fe hne]
  refine ⟨rfl, rfl, rfl, rfl, ?_⟩
  intro now2 fo2 p2 hle
  have hexp : ∀ ttl : Int, (newErrCacheItem fe (cfg.errorTTLFunc fe) now : CacheEntry T).IsExpired
      ttl now2 = false := by
    intro ttl
    simp [newErrCacheItem, CacheEntry.IsExpired]
    omega
  simp only [GetBody, newErrCacheItem] at hexp ⊢
  simp [hexp]

/-- Witness for the amended C2 at a concrete input: the error entry is
written under `secondaryTTL` and a later read still surfaces error `7`. -/
theorem claim_C2_amended_witness :
    (GetBody cfgErrTTL5 (none : Option (CacheEntry Nat)) 0 (Except.error 7) false).backendWrite
      = some (cfgErrTTL5.secondaryTTL, newErrCacheItem 7 5 0) ∧
    (GetBody cfgErrTTL5 (some (newErrCacheItem 7 5 0 : CacheEntry Nat)) 3 (Except.error 9) false).outerErr
      = some 7 := by
  have h := claim_C2_amended_theorem cfgErrTTL5 (none : Option (CacheEntry Nat)) 0 7 false
    (Or.inl rfl) (by decide)
  exact ⟨h.2.2.1, (h.2.2.2.2 3 (Except.error 9) false (by decide)).1⟩

/-- The code divergence behind C3: the background refresh spawned by a
WarmHit runs its fetch under the background context (derived from the
cache lifetime context, bounded by the timeout, not sensitive to the
caller's cancellation), but its `backend.Set` write-back is invoked with
the spawning caller's context — `cache.go` line 225 passes `ctx`, the
`Get` parameter, instead of `bkgCtx` — so the write-back is affected by
the spawning caller's context, contradicting the claim.  Evaluated at a
concrete WarmHit under the default configuration. -/
theorem claim_C3_code_divergence :
    (GetBody defaultConfig
      (some ({ data := some 1, err := none, created := 0, fixedExpiration := none } :
        CacheEntry Nat))
      (2 * timeMinute) (Except.ok { data := some 1, createdAt := none }) false).spawned =
      some { fetchCtx := [CancelSource.cacheLifetime, CancelSource.bgTimeout]
             setCtx := [CancelSource.callerCancel] } ∧
    CancelSource.callerCancel ∉ backgroundContextSources defaultConfig ∧
    CancelSource.callerCancel ∈ callerContextSources := by
  refine ⟨by decide, by decide, by decide⟩

/-- The code divergence behind C4: `WithTTL` validates the fields of the
incoming configuration (`c.primaryTTL == 0`, `c.secondaryTTL <=
c.primaryTTL`) instead of its arguments, so against the defaults every
`WithTTL` call passes validation and the arguments are stored unchecked.
`New` with `WithTTL(0, 0)` therefore succeeds and installs
`primaryTTL = 0` and `secondaryTTL = 0`, and `WithTTL(0, -1)` on the
default configuration likewise succeeds, contradicting the claim (and the
option's own error messages). -/
theorem claim_C4_code_divergence :
    New false [WithTTL 0 0] =
      Except.ok { defaultConfig with primaryTTL := 0, secondaryTTL := 0 } ∧
    WithTTL 0 (-1) defaultConfig =
      Except.ok { defaultConfig with primaryTTL := 0, secondaryTTL := -1 } := by
  constructor <;> rfl

/-- Counterexample to C7 as stated: the claim's final clause says that for
every entry with no fixed expiration `IsExpired(0)` is true, but at
`now = created` the strict comparison (which the claim itself mandates:
equality means not yet expired) makes it false. -/
theorem claim_C7_counterexample :
    ({ data := none, err := none, created := 0, fixedExpiration := none } :
      CacheEntry Nat).IsExpired 0 0 = false := by
  decide

/-- C7 as amended: `IsExpired(ttl)` returns `fixedExpiration < now` when
a fixed expiration is present and `created + ttl < now` otherwise, with
strict comparison (equality means not yet expired); consequently, for
every entry with no fixed expiration whose creation instant lies strictly
before `now`, `IsExpired(0)` is true. -/
theorem claim_C7_amended_theorem {T : Type} (e : CacheEntry T) (ttl now : Int) :
    (∀ f, e.fixedExpiration = some f → (e.IsExpired ttl now = true ↔ f < now)) ∧
    (e.fixedExpiration = none → (e.IsExpired ttl now = true ↔ e.created + ttl < now)) ∧
    (e.fixedExpiration = some now → e.IsExpired ttl now = false) ∧
    (e.fixedExpiration = none → now = e.created + ttl → e.IsExpired ttl now = false) ∧
    (e.fixedExpiration = none → e.created < now → e.IsExpired 0 now = true) := by
  refine ⟨?_, ?_, ?_, ?_, ?_⟩
  · intro f hf
    simp [CacheEntry.IsExpired, hf]
  · intro hf
    simp [CacheEntry.IsExpired, hf]
  · intro hf
    simp [CacheEntry.IsExpired, hf]
  · intro hf hnow
    simp [CacheEntry.IsExpired, hf]
    omega
  · intro hf hlt
    simp [CacheEntry.IsExpired, hf]
    omega

/-- Witness for the amended C7 at a concrete input: an entry created at 0
with no fixed expiration is expired under ttl 0 at instant 1. -/
theorem claim_C7_witness :
    ({ data := none, err := none, created := 0, fixedExpiration := none } :
      CacheEntry Nat).IsExpired 0 1 = true :=
  (claim_C7_amended_theorem
    ({ data := none, err := none, created := 0, fixedExpiration := none } : CacheEntry Nat)
    0 1).2.2.2.2 rfl (by decide)

/-- The code divergence behind C8: for every successful fetch the entry
written to the backend has `created` equal to the completion instant
`now`, because `fetchToCacheEntry` passes the data to `newOKCacheItem`
and never reads the `CreatedAt` field of the `FetchResult` — even though
that field is documented as "a time when the data was fetched as fresh;
optional, defaults to the function call time".  Evaluated at a fetch
result carrying `createdAt = 5` with completion instant 100: the entry's
`created` is 100, not 5. -/
theorem claim_C8_code_divergence :
    (∀ (T : Type) (cfg : Config) (now : Int) (r : FetchResult T),
      (fetchToCacheEntry cfg now (Except.ok r)).1.created = now) ∧
    (fetchToCacheEntry defaultConfig 100
      (Except.ok ({ data := some 1, createdAt := some 5 } : FetchResult Nat))).1.created = 100 ∧
    (100 : Int) ≠ 5 := by
  refine ⟨?_, by decide, by decide⟩
  intro T cfg now r
  rfl

/-- C10: only an `errorTTLFunc` result of exactly 0 disables negative
caching.  For every fetch error whose `errorTTLFunc` result is negative,
the foreground Miss branch still constructs an error entry (whose fixed
expiration `now + ttl` already lies in the past) and writes it to the
backend under `secondaryTTL`, and every later `Get` for that key
classifies the written entry as expired and takes the Miss branch again;
whereas an `errorTTLFunc` result of 0 suppresses the write. -/
theorem claim_C10_negative_ttl {T : Type} (cfg : Config) (entry : Option (CacheEntry T))
    (now : Int) (fe : Err) (p : Bool)
    (hmiss : MissClassified cfg entry now) (hneg : cfg.errorTTLFunc fe < 0) :
    (GetBody cfg entry now (Except.error fe) p).backendWrite =
      some (cfg.secondaryTTL, newErrCacheItem fe (cfg.errorTTLFunc fe) now) ∧
    now + cfg.errorTTLFunc fe < now ∧
    (∀ (now2 : Int) (fo2 : Except Err (FetchResult T)) (p2 : Bool), now ≤ now2 →
      (GetBody cfg (some (newErrCacheItem fe (cfg.errorTTLFunc fe) now)) now2 fo2 p2).result.type
        = ResultType.Miss ∧
      (GetBody cfg (some (newErrCacheItem fe (cfg.errorTTLFunc fe) now)) now2 fo2 p2).fetchInvoked
        = true) ∧
    (∀ fe0, cfg.errorTTLFunc fe0 = 0 →
      (GetBody cfg entry now (Except.error fe0) p).backendWrite = none) := by
  have hne : cfg.errorTTLFunc fe ≠ 0 := by omega
  refine ⟨?_, by omega, ?_, ?_⟩
  · rw [getBody_eq_miss cfg entry now (Except.error fe) p hmiss,
      getMissBranch_err_pos cfg now fe hne]
  · intro now2 fo2 p2 hle
    have hexp : (newErrCacheItem fe (cfg.errorTTLFunc fe) now : CacheEntry T).IsExpired
        cfg.secondaryTTL now2 = true := by
      simp [newErrCacheItem, CacheEntry.IsExpired]
      omega
    have hmiss2 : MissClassified cfg
        (some (newErrCacheItem fe (cfg.errorTTLFunc fe) now : CacheEntry T)) now2 :=
      Or.inr ⟨_, rfl, hexp⟩
    rw [getBody_eq_miss cfg _ now2 fo2 p2 hmiss2]
    cases hf : (fetchToCacheEntry cfg now2 fo2).2 <;> simp [getMissBranch, hf]
  · intro fe0 h0
    rw [getBody_eq_miss cfg entry now (Except.error fe0) p hmiss]
    simp [getMissBranch, fetchToCacheEntry, h0]

/-- Witness for C10 at a concrete input: with `errorTTLFunc` returning
-3, the error entry is written and the immediately following read is a
Miss that invokes the fetch. -/
theorem claim_C10_witness :
    (GetBody { defaultConfig with errorTTLFunc := fun _ => -3 }
      (none : Option (CacheEntry Nat)) 0 (Except.error 7) false).backendWrite =
      some (timeHour, newErrCacheItem 7 (-3) 0) ∧
    (GetBody { defaultConfig with errorTTLFunc := fun _ => -3 }
      (some (newErrCacheItem 7 (-3) 0 : CacheEntry Nat)) 0 (Except.error 7) false).result.type
      = ResultType.Miss := by
  have h := claim_C10_negative_ttl { defaultConfig with errorTTLFunc := fun _ => -3 }
    (none : Option (CacheEntry Nat)) 0 7 false (Or.inl rfl) (by decide)
  exact ⟨h.1, (h.2.2.1 0 (Except.error 7) false (by decide)).1⟩

/-- State after one `Get` call has arrived. -/
def stateA1 : SysState := { initState with fgStart := 1 }

/-- State after that call passed both context checks. -/
def stateA2 : SysState := { initState with fgChecked := 1 }

/-- State after the call registered with the waitgroup. -/
def stateA3 : SysState := { initState with fgRegistered := 1, wgCount := 1 }

/-- State after the call acquired a fresh registry record. -/
def stateA4 : SysState :=
  { initState with
      fgAcquired := 1
      wgCount := 1
      slot := some { requests := 1, updatePending := false } }

theorem reachable_stateA2 : Reachable stateA2 := by
  have h1 : Reachable stateA1 := Reachable.step Reachable.init (Step.getArrive initState)
  exact Reachable.step h1 (Step.getCheckPass stateA1 (by decide) rfl)

theorem reachable_stateA4 : Reachable stateA4 := by
  have h3 : Reachable stateA3 :=
    Reachable.step reachable_stateA2 (Step.getRegister stateA2 (by decide))
  exact Reachable.step h3 (Step.getAcquire stateA3 (by decide))

/-- C5: while `updatePending` is true for a key, no `Get` taking the
WarmHit branch spawns an additional background refresh, and at most one
background refresh is in flight per key at any time: in every reachable
state `bgRunning ≤ 1`; no step from a state whose registry record has
`updatePending = true` increases the number of in-flight refreshes (the
spawning step requires `updatePending = false`); and the WarmHit body of
`Get` with `updatePending = true` returns the cached data immediately
with no spawned task and no foreground fetch. -/
theorem claim_C5_single_refresh :
    (∀ s, Reachable s → s.bgRunning ≤ 1) ∧
    (∀ s t r, Reachable s → s.slot = some r → r.updatePending = true → Step s t →
      t.bgRunning ≤ s.bgRunning) ∧
    (∀ (T : Type) (cfg : Config) (e : CacheEntry T) (now : Int)
      (fo : Except Err (FetchResult T)),
      e.IsExpired cfg.secondaryTTL now = false → e.IsExpired cfg.primaryTTL now = true →
      (GetBody cfg (some e) now fo true).spawned = none ∧
      (GetBody cfg (some e) now fo true).result.data = e.data ∧
      (GetBody cfg (some e) now fo true).result.type = ResultType.WarmHit ∧
      (GetBody cfg (some e) now fo true).fetchInvoked = false) := by
  refine ⟨?_, ?_, ?_⟩
  · intro s hs
    exact (inv_reachable hs).2.2.1
  · intro s t r hs hslot hp hstep
    cases hstep with
    | getWarmSpawn r0 h hs0 hp0 =>
      rw [hslot] at hs0
      simp only [Option.some.injEq] at hs0
      subst hs0
      simp [hp] at hp0
    | getArrive => simp
    | getCheckPass h hc => simp
    | getCheckFail h hc => simp
    | getRegister h => simp
    | getAcquire h => simp
    | getMissFetch h => simp
    | getFetchDone h => simp
    | getHot h => simp
    | getWarmNoSpawn r0 h hs0 hp0 => simp
    | getRelease r0 h hs0 => simp
    | getWgDone h => simp
    | bgFinish r0 h hs0 => simp
    | bgWgDone h => simp
    | closeCancel hc => simp
    | closeReturn hc hw hr => simp
  · intro T cfg e now fo hsec hprim
    simp [GetBody, hsec, hprim]

/-- Witness for C5: the initial state has at most one refresh in flight,
and a concrete WarmHit body observing `updatePending = true` spawns
nothing. -/
theorem claim_C5_witness :
    initState.bgRunning ≤ 1 ∧
    (GetBody defaultConfig
      (some ({ data := some 2, err := none, created := 0, fixedExpiration := none } :
        CacheEntry Nat))
      (2 * timeMinute) (Except.error 3) true).spawned = none :=
  ⟨claim_C5_single_refresh.1 initState Reachable.init,
    (claim_C5_single_refresh.2.2 Nat defaultConfig
      { data := some 2, err := none, created := 0, fixedExpiration := none }
      (2 * timeMinute) (Except.error 3) (by decide) (by decide)).1⟩

/-- C6: in every reachable state of the coordinator registry, across
every interleaving of `Get` calls and background refreshes: a record
exists in the map for the key if and only if its waiter count is positive
(an absent record means no foreground holder and no background refresh, a
present record counts exactly the holders plus the refresh and is never
retained at count zero); `updatePending` implies a waiter count of at
least 1; and when the last waiter leaves — whichever step performs the
final decrement — the record is removed, so no step ever yields a
retained record with count zero. -/
theorem claim_C6_registry_invariant (s : SysState) (hs : Reachable s) :
    (s.slot = none → fgHolders s = 0 ∧ s.bgRunning = 0) ∧
    (∀ r, s.slot = some r → r.requests = fgHolders s + s.bgRunning ∧ 0 < r.requests) ∧
    (∀ r, s.slot = some r → r.updatePending = true → 1 ≤ r.requests) ∧
    (∀ t r, Step s t → t.slot = some r → 0 < r.requests) := by
  obtain ⟨hwg, hcl, hbg1, hnone, hsome⟩ := inv_reachable hs
  refine ⟨hnone, ?_, ?_, ?_⟩
  · intro r hr
    exact ⟨(hsome r hr).1, (hsome r hr).2.1⟩
  · intro r hr _
    exact (hsome r hr).2.1
  · intro t r hstep ht
    have hinvt := inv_step ⟨hwg, hcl, hbg1, hnone, hsome⟩ hstep
    exact (hinvt.2.2.2.2 r ht).2.1

/-- Witness for C6 at a concrete reachable state holding one record: the
record's count equals the single holder and is positive. -/
theorem claim_C6_witness :
    ({ requests := 1, updatePending := false } : Request).requests =
      fgHolders stateA4 + stateA4.bgRunning ∧
    0 < ({ requests := 1, updatePending := false } : Request).requests :=
  (claim_C6_registry_invariant stateA4 reachable_stateA4).2.1
    { requests := 1, updatePending := false } rfl

/-- State in which a `Get` call passed the lifetime check and `Close`
then cancelled the context. -/
def stateC9a : SysState := { initState with fgChecked := 1, cancelled := true }

/-- State in which `Close` has additionally returned (the waitgroup
counter is zero because the call has not yet registered). -/
def stateC9b : SysState :=
  { initState with fgChecked := 1, cancelled := true, closeReturned := true }

/-- State in which the straggling call registered after `Close`
returned. -/
def stateC9c : SysState :=
  { initState with fgRegistered := 1, wgCount := 1, cancelled := true, closeReturned := true }

/-- State in which the straggling call acquired a registry record after
`Close` returned. -/
def stateC9d : SysState :=
  { initState with
      fgAcquired := 1
      wgCount := 1
      cancelled := true
      closeReturned := true
      slot := some { requests := 1, updatePending := false } }

/-- State in which the straggling call is invoking its fetch, with
`Close` long returned. -/
def stateC9 : SysState :=
  { initState with
      fgFetching := 1
      wgCount := 1
      cancelled := true
      closeReturned := true
      slot := some { requests := 1, updatePending := false } }

theorem reachable_stateC9 : Reachable stateC9 := by
  have h3 : Reachable stateC9a :=
    Reachable.step reachable_stateA2 (Step.closeCancel stateA2 rfl)
  have h4 : Reachable stateC9b :=
    Reachable.step h3 (Step.closeReturn stateC9a rfl rfl rfl)
  have h5 : Reachable stateC9c :=
    Reachable.step h4 (Step.getRegister stateC9b (by decide))
  have h6 : Reachable stateC9d :=
    Reachable.step h5 (Step.getAcquire stateC9c (by decide))
  exact Reachable.step h6 (Step.getMissFetch stateC9d (by decide))

/-- Counterexample to C9 as stated: a `Get` call that passed the lifetime
check at line 122 of `cache.go` but had not yet executed `sc.wg.Add(1)`
at line 129 is invisible to `Close`'s `sc.wg.Wait()`, so `Close` can
cancel, observe a zero counter and return while that call is still in
flight; the call then registers, acquires a Slot and invokes its fetch
after `Close` has returned.  The exhibited reachable state has
`closeReturned = true` together with an unfinished `Get` inside the Miss
branch fetch and a live registry record, contradicting both "returns only
after every in-flight Get call has completed" and "after Close() returns
… acquires no Slot, and invokes no fetch". -/
theorem claim_C9_counterexample :
    Reachable stateC9 ∧ stateC9.closeReturned = true ∧ stateC9.fgFetching = 1 ∧
    stateC9.slot = some { requests := 1, updatePending := false } :=
  ⟨reachable_stateC9, rfl, rfl, rfl⟩

/-- C9 as amended: `Close` cancels the lifetime context and returns only
once the waitgroup counter is zero, so at the instant it returns every
`Get` that has registered with the shutdown barrier and every background
refresh spawned so far has completed; a `Get` that passed the lifetime
check before cancellation but had not yet registered may still proceed
after `Close` returns.  Once `Close` has returned, any `Get` performing
its initial lifetime check fails immediately with the shutdown error —
the only step available to it moves it to the failed return, leaving the
registry, the counter and the set of fetching calls untouched — and once
the context is cancelled no `Get` ever passes the check. -/
theorem claim_C9_amended_theorem :
    (∀ s t, Reachable s → Step s t → s.closeReturned = false → t.closeReturned = true →
      s.wgCount = 0 ∧ wgOwners s = 0) ∧
    (∀ s t, Reachable s → s.closeReturned = true → Step s t → t.fgStart < s.fgStart →
      t.fgFailed = s.fgFailed + 1 ∧ t.slot = s.slot ∧ t.wgCount = s.wgCount ∧
      t.fgFetching = s.fgFetching) ∧
    (∀ s t, Reachable s → s.cancelled = true → Step s t → t.fgChecked ≤ s.fgChecked) := by
  refine ⟨?_, ?_, ?_⟩
  · intro s t hreach hstep hf ht
    obtain ⟨hwg, hcl, hbg1, hnone, hsome⟩ := inv_reachable hreach
    cases hstep
    case closeReturn hc hw hr => exact ⟨hw, by omega⟩
    all_goals simp [hf] at ht
  · intro s t hreach hcr hstep hlt
    have hcanc : s.cancelled = true := (inv_reachable hreach).2.1 hcr
    cases hstep
    case getCheckFail h hc =>
      exact ⟨by simp, by simp, by simp, by simp⟩
    case getCheckPass h hc =>
      rw [hcanc] at hc
      exact absurd hc (by simp)
    all_goals (exfalso; simp at hlt; try omega)
  · intro s t hreach hcanc hstep
    cases hstep
    case getCheckPass h hc =>
      rw [hcanc] at hc
      exact absurd hc (by simp)
    all_goals simp

/-- State with the lifetime context cancelled and nothing in flight. -/
def stateC9cancelled : SysState := { initState with cancelled := true }

/-- Witness for the amended C9 at the concrete close-return step from the
cancelled idle state: the counter and its owners are zero at the
return. -/
theorem claim_C9_amended_witness :
    stateC9cancelled.wgCount = 0 ∧ wgOwners stateC9cancelled = 0 :=
  claim_C9_amended_theorem.1 stateC9cancelled
    { stateC9cancelled with closeReturned := true }
    (Reachable.step Reachable.init (Step.closeCancel initState rfl))
    (Step.closeReturn stateC9cancelled rfl rfl rfl) rfl rfl

end SmartCache
